import Mathlib

/-!
Verification of the SEC API tool adapter
(src/libs/community/langchain_community/tools/sec_api/tool.py).

The adapter routes a query string to one of two operations of an external
client (CustomSECAPI): ticker-based filing lookup (get_filings) or
full-text search (full_text_search).  We embed the adapter shallowly:

* a client call is recorded as a `ClientCall` value holding exactly the
  keyword arguments the Python code passes at the call site (arguments the
  code omits, letting the client's own defaults apply, are recorded as
  `none`);
* the external client is an arbitrary response function
  `ClientCall → Except Exc α`, where `Exc` carries the message text that
  Python's `str(e)` would produce;
* each adapter operation returns both its Python result — `Except.ok` for a
  normal return, `Except.error` for a raised exception — and the list of
  client calls it performed, in order, so that routing claims ("invokes
  get_filings, never full_text_search") are directly statable.

Strings in the claims are ASCII; `isUpperAscii` / `isLowerAscii` below are
the ASCII ranges A-Z and a-z, matching the spec's "by convention, ASCII
A-Z" reading of Python's `str.isupper`.
-/

/-- An uppercase ASCII letter, i.e. a character in the range A-Z. -/
def isUpperAscii (c : Char) : Bool :=
  decide (65 ≤ c.toNat) && decide (c.toNat ≤ 90)

/-- A lowercase ASCII letter, i.e. a character in the range a-z. -/
def isLowerAscii (c : Char) : Bool :=
  decide (97 ≤ c.toNat) && decide (c.toNat ≤ 122)

/-- A character is cased (for ASCII) iff it is an upper- or lowercase
letter; Python's `str.isupper` quantifies over cased characters only. -/
def pyCased (c : Char) : Bool := isUpperAscii c || isLowerAscii c

/-- Embedding of Python `s.isupper()` for ASCII strings: true iff `s` has
at least one cased character and every cased character is uppercase. -/
def pyIsUpper (s : String) : Bool :=
  s.data.any pyCased && s.data.all (fun c => !pyCased c || isUpperAscii c)

/-- The routing condition of `SECAPITool._run`:
`query.isupper() and len(query) <= 5`. -/
def isTickerQuery (query : String) : Bool :=
  pyIsUpper query && decide (query.length ≤ 5)

/-- An exception raised by the external client; `msg` is the text that
Python's `str(e)` yields. -/
structure Exc where
  msg : String
deriving DecidableEq

/-- One call to the external client, recording the operation and exactly
the keyword arguments passed at the call site.  Arguments the adapter does
not pass (left to the client's own defaults) are `none`. -/
inductive ClientCall where
  | getFilings (ticker : String) (form_type date_from date_to : Option String)
      (limit : Option Nat)
  | fullTextSearch (search_query : String) (form_types : Option (List String))
      (date_from date_to : Option String) (limit : Option Nat)
deriving DecidableEq

/-- The external client (CustomSECAPI), as an arbitrary response function:
for each call it either returns a result or raises an exception. -/
abbrev Client (α : Type) := ClientCall → Except Exc α

/-- The exceptions the adapter itself raises: `ToolException` from `_run`,
`ValueError` from the explicit parameterized operations. -/
inductive RaisedError where
  | toolException (msg : String)
  | valueError (msg : String)
deriving DecidableEq

namespace SECAPITool

/-- Embedding of `SECAPITool._run`: if `query.isupper() and len(query) <= 5`
call `get_filings(ticker=query, limit=5)`, wrapping any exception as
`ToolException("Error searching filings: " + str(e))`; otherwise call
`full_text_search(search_query=query, limit=5)`, wrapping any exception as
`ToolException("Error searching text: " + str(e))`.  The second component
is the list of client calls performed. -/
def run {α : Type} (client : Client α) (query : String) :
    Except RaisedError α × List ClientCall :=
  if isTickerQuery query then
    let call := ClientCall.getFilings query none none none (some 5)
    match client call with
    | Except.ok results => (Except.ok results, [call])
    | Except.error e =>
        (Except.error (RaisedError.toolException ("Error searching filings: " ++ e.msg)),
         [call])
  else
    let call := ClientCall.fullTextSearch query none none none (some 5)
    match client call with
    | Except.ok results => (Except.ok results, [call])
    | Except.error e =>
        (Except.error (RaisedError.toolException ("Error searching text: " ++ e.msg)),
         [call])

/-- Embedding of `SECAPITool.filing_search`: forwards all five parameters
to `get_filings`, wrapping any exception as
`ValueError("Error in filing search: " + str(e))`. -/
def filing_search {α : Type} (client : Client α) (ticker : String)
    (form_type date_from date_to : Option String) (limit : Nat) :
    Except RaisedError α × List ClientCall :=
  let call := ClientCall.getFilings ticker form_type date_from date_to (some limit)
  match client call with
  | Except.ok results => (Except.ok results, [call])
  | Except.error e =>
      (Except.error (RaisedError.valueError ("Error in filing search: " ++ e.msg)),
       [call])

/-- Calling `filing_search` with only a ticker: the Python defaults are
`form_type=None, date_from=None, date_to=None, limit=50`. -/
def filing_search_defaults {α : Type} (client : Client α) (ticker : String) :
    Except RaisedError α × List ClientCall :=
  filing_search client ticker none none none 50

/-- Embedding of `SECAPITool.full_text_search`: forwards all five
parameters to the client's `full_text_search` (the `query` parameter is
passed as `search_query`), wrapping any exception as
`ValueError("Error in full text search: " + str(e))`. -/
def full_text_search {α : Type} (client : Client α) (query : String)
    (form_types : Option (List String)) (date_from date_to : Option String)
    (limit : Nat) : Except RaisedError α × List ClientCall :=
  let call := ClientCall.fullTextSearch query form_types date_from date_to (some limit)
  match client call with
  | Except.ok results => (Except.ok results, [call])
  | Except.error e =>
      (Except.error (RaisedError.valueError ("Error in full text search: " ++ e.msg)),
       [call])

/-- Calling `full_text_search` with only a query: the Python defaults are
`form_types=None, date_from=None, date_to=None, limit=50`. -/
def full_text_search_defaults {α : Type} (client : Client α) (query : String) :
    Except RaisedError α × List ClientCall :=
  full_text_search client query none none none 50

/-- Embedding of the credential resolution in `SECAPITool.__init__`:
after `super().__init__(api_key=api_key, **kwargs)` the field
`self.api_key` holds the explicit argument when one was given and the
class-configured default otherwise; the key bound to the constructed
`CustomSECAPI` wrapper is `api_key or self.api_key`, where Python treats
`None` and the empty string as falsy. -/
def bound_api_key (api_key : Option String) (class_default : String) : String :=
  let self_api_key := match api_key with
    | some k => k
    | none => class_default
  match api_key with
  | some k => if k = "" then self_api_key else k
  | none => self_api_key

end SECAPITool

/-! ## Helper lemmas -/

lemma isUpperAscii_eq_false_of_isLowerAscii {c : Char} (h : isLowerAscii c = true) :
    isUpperAscii c = false := by
  simp only [isLowerAscii, isUpperAscii, Bool.and_eq_true, decide_eq_true_eq,
    Bool.and_eq_false_iff, decide_eq_false_iff_not, Nat.not_le] at h ⊢
  omega

lemma pyCased_of_isUpperAscii {c : Char} (h : isUpperAscii c = true) :
    pyCased c = true := by
  simp [pyCased, h]

lemma pyCased_of_isLowerAscii {c : Char} (h : isLowerAscii c = true) :
    pyCased c = true := by
  simp [pyCased, h]

/-- Characterization of the routing condition: `isTickerQuery q` holds iff
`q` has a cased character, every cased character of `q` is uppercase, and
`q` has at most five characters (Python `isupper() and len <= 5`). -/
lemma isTickerQuery_eq_true_iff (q : String) :
    isTickerQuery q = true ↔
      (∃ c ∈ q.data, pyCased c = true) ∧
        (∀ c ∈ q.data, pyCased c = true → isUpperAscii c = true) ∧
        q.length ≤ 5 := by
  unfold isTickerQuery pyIsUpper
  simp only [Bool.and_eq_true, List.any_eq_true, List.all_eq_true, decide_eq_true_eq,
    Bool.or_eq_true, Bool.not_eq_true']
  constructor
  · rintro ⟨⟨hany, hall⟩, hlen⟩
    refine ⟨hany, fun c hc hcased => ?_, hlen⟩
    rcases hall c hc with h | h
    · rw [hcased] at h; cases h
    · exact h
  · rintro ⟨hany, hall, hlen⟩
    refine ⟨⟨hany, fun c hc => ?_⟩, hlen⟩
    rcases hcase : pyCased c with _ | _
    · exact Or.inl rfl
    · exact Or.inr (hall c hc hcase)

lemma isTickerQuery_eq_false_of {q : String}
    (h : 5 < q.length ∨ q.data.all (fun c => !pyCased c) = true ∨
          q.data.any isLowerAscii = true) :
    isTickerQuery q = false := by
  rw [Bool.eq_false_iff]
  intro htrue
  obtain ⟨⟨c, hc, hcased⟩, hall, hlen⟩ := (isTickerQuery_eq_true_iff q).mp htrue
  rcases h with h | h | h
  · omega
  · have := List.all_eq_true.mp h c hc
    simp only [Bool.not_eq_true'] at this
    rw [hcased] at this; cases this
  · obtain ⟨d, hd, hdlow⟩ := List.any_eq_true.mp h
    have hup := hall d hd (pyCased_of_isLowerAscii hdlow)
    rw [isUpperAscii_eq_false_of_isLowerAscii hdlow] at hup
    cases hup

lemma isTickerQuery_of_upper_letters {q : String}
    (hU : ∀ c ∈ q.data, isUpperAscii c = true) (h1 : 1 ≤ q.length) (h5 : q.length ≤ 5) :
    isTickerQuery q = true := by
  refine (isTickerQuery_eq_true_iff q).mpr ⟨?_, fun c hc _ => hU c hc, h5⟩
  rcases hd : q.data with _ | ⟨c, cs⟩
  · exfalso
    have h0 : q.length = q.data.length := rfl
    rw [hd] at h0
    simp at h0
    omega
  · have hm : c ∈ q.data := by rw [hd]; exact List.mem_cons_self c cs
    exact ⟨c, List.mem_cons_self c cs, pyCased_of_isUpperAscii (hU c hm)⟩

/-- Ticker branch of `_run`, client succeeds: full evaluation. -/
lemma run_eq_of_ticker_ok {α : Type} (client : Client α) (q : String) (r : α)
    (h : isTickerQuery q = true)
    (hok : client (ClientCall.getFilings q none none none (some 5)) = Except.ok r) :
    SECAPITool.run client q =
      (Except.ok r, [ClientCall.getFilings q none none none (some 5)]) := by
  simp [SECAPITool.run, h, hok]

/-- Ticker branch of `_run`, client raises: full evaluation. -/
lemma run_eq_of_ticker_err {α : Type} (client : Client α) (q : String) (e : Exc)
    (h : isTickerQuery q = true)
    (herr : client (ClientCall.getFilings q none none none (some 5)) = Except.error e) :
    SECAPITool.run client q =
      (Except.error (RaisedError.toolException ("Error searching filings: " ++ e.msg)),
       [ClientCall.getFilings q none none none (some 5)]) := by
  simp [SECAPITool.run, h, herr]

/-- Full-text branch of `_run`, client succeeds: full evaluation. -/
lemma run_eq_of_fulltext_ok {α : Type} (client : Client α) (q : String) (r : α)
    (h : isTickerQuery q = false)
    (hok : client (ClientCall.fullTextSearch q none none none (some 5)) = Except.ok r) :
    SECAPITool.run client q =
      (Except.ok r, [ClientCall.fullTextSearch q none none none (some 5)]) := by
  simp [SECAPITool.run, h, hok]

/-- Full-text branch of `_run`, client raises: full evaluation. -/
lemma run_eq_of_fulltext_err {α : Type} (client : Client α) (q : String) (e : Exc)
    (h : isTickerQuery q = false)
    (herr : client (ClientCall.fullTextSearch q none none none (some 5)) = Except.error e) :
    SECAPITool.run client q =
      (Except.error (RaisedError.toolException ("Error searching text: " ++ e.msg)),
       [ClientCall.fullTextSearch q none none none (some 5)]) := by
  simp [SECAPITool.run, h, herr]

/-- The call trace of `_run` in the ticker branch, for any client outcome. -/
lemma run_calls_of_ticker {α : Type} (client : Client α) (q : String)
    (h : isTickerQuery q = true) :
    (SECAPITool.run client q).2 = [ClientCall.getFilings q none none none (some 5)] := by
  rcases hc : client (ClientCall.getFilings q none none none (some 5)) with e | r
  · rw [run_eq_of_ticker_err client q e h hc]
  · rw [run_eq_of_ticker_ok client q r h hc]

/-- The call trace of `_run` in the full-text branch, for any client outcome. -/
lemma run_calls_of_fulltext {α : Type} (client : Client α) (q : String)
    (h : isTickerQuery q = false) :
    (SECAPITool.run client q).2 = [ClientCall.fullTextSearch q none none none (some 5)] := by
  rcases hc : client (ClientCall.fullTextSearch q none none none (some 5)) with e | r
  · rw [run_eq_of_fulltext_err client q e h hc]
  · rw [run_eq_of_fulltext_ok client q r h hc]

/-! ## Claim theorems -/

/-- Claim C1: for every query string consisting entirely of uppercase ASCII
letters with 1 <= len(q) <= 5, `_run` invokes the client's `get_filings`
with ticker = q and limit = 5, never `full_text_search`, and on success
returns the client's result mapping unchanged: the result is the client's
value and the call trace is exactly the one `get_filings` call. -/
theorem C1_run_routes_uppercase_ticker {α : Type} (client : Client α) (q : String) (r : α)
    (hU : ∀ c ∈ q.data, isUpperAscii c = true) (h1 : 1 ≤ q.length) (h5 : q.length ≤ 5)
    (hok : client (ClientCall.getFilings q none none none (some 5)) = Except.ok r) :
    SECAPITool.run client q =
      (Except.ok r, [ClientCall.getFilings q none none none (some 5)]) :=
  run_eq_of_ticker_ok client q r (isTickerQuery_of_upper_letters hU h1 h5) hok

theorem C1_witness :
    SECAPITool.run (fun _ => Except.ok (0 : Nat)) "TSLA" =
      (Except.ok 0, [ClientCall.getFilings "TSLA" none none none (some 5)]) :=
  C1_run_routes_uppercase_ticker (fun _ => Except.ok 0) "TSLA" 0
    (by decide) (by decide) (by decide) rfl

/-- Claim C2 counterexample: the query "10-K" is non-empty, contains
non-letter characters (so it is not a string of all-uppercase letters of
length at most 5), yet `_run` invokes `get_filings`, not
`full_text_search`: Python's str.isupper is true on "10-K" because its
only cased character K is uppercase. -/
theorem C2_counterexample :
    (SECAPITool.run (fun _ => Except.ok (0 : Nat)) "10-K").2 =
        [ClientCall.getFilings "10-K" none none none (some 5)] ∧
    ¬ (SECAPITool.run (fun _ => Except.ok (0 : Nat)) "10-K").2 =
        [ClientCall.fullTextSearch "10-K" none none none (some 5)] := by
  decide

/-- Claim C2 (amended): for every query string q such that len(q) > 5, or
q has no cased character (for example the empty string or a digits-only
string), or q contains a lowercase letter — that is, every q on which
Python's "isupper() and len <= 5" test fails — `_run` invokes the
client's `full_text_search` with search_query = q and limit = 5, never
the filing-lookup operation, and on success returns the client's result
mapping unchanged. -/
theorem C2_run_routes_fulltext {α : Type} (client : Client α) (q : String) (r : α)
    (h : 5 < q.length ∨ q.data.all (fun c => !pyCased c) = true ∨
          q.data.any isLowerAscii = true)
    (hok : client (ClientCall.fullTextSearch q none none none (some 5)) = Except.ok r) :
    SECAPITool.run client q =
      (Except.ok r, [ClientCall.fullTextSearch q none none none (some 5)]) :=
  run_eq_of_fulltext_ok client q r (isTickerQuery_eq_false_of h) hok

theorem C2_witness :
    SECAPITool.run (fun _ => Except.ok (0 : Nat)) "artificial intelligence" =
      (Except.ok 0,
       [ClientCall.fullTextSearch "artificial intelligence" none none none (some 5)]) :=
  C2_run_routes_fulltext (fun _ => Except.ok 0) "artificial intelligence" 0
    (Or.inl (by decide)) rfl

/-- Claim C3: whenever the client call made by `_run` raises, `_run`
raises a ToolException whose message is the branch-identifying prefix —
"Error searching filings: " in the filing-lookup branch, "Error searching
text: " in the full-text branch — followed by the original exception's
message text. -/
theorem C3_run_wraps_client_errors {α : Type} (client : Client α) (q : String) (e : Exc) :
    (isTickerQuery q = true →
      client (ClientCall.getFilings q none none none (some 5)) = Except.error e →
      (SECAPITool.run client q).1 =
        Except.error (RaisedError.toolException ("Error searching filings: " ++ e.msg))) ∧
    (isTickerQuery q = false →
      client (ClientCall.fullTextSearch q none none none (some 5)) = Except.error e →
      (SECAPITool.run client q).1 =
        Except.error (RaisedError.toolException ("Error searching text: " ++ e.msg))) := by
  constructor
  · intro h herr
    rw [run_eq_of_ticker_err client q e h herr]
  · intro h herr
    rw [run_eq_of_fulltext_err client q e h herr]

theorem C3_witness :
    (SECAPITool.run (fun _ => Except.error (Exc.mk "boom") : Client Nat) "TSLA").1 =
      Except.error
        (RaisedError.toolException ("Error searching filings: " ++ "boom")) ∧
    (SECAPITool.run (fun _ => Except.error (Exc.mk "boom") : Client Nat) "hello").1 =
      Except.error
        (RaisedError.toolException ("Error searching text: " ++ "boom")) :=
  ⟨(C3_run_wraps_client_errors (fun _ => Except.error (Exc.mk "boom")) "TSLA"
      (Exc.mk "boom")).1 (by decide) rfl,
   (C3_run_wraps_client_errors (fun _ => Except.error (Exc.mk "boom")) "hello"
      (Exc.mk "boom")).2 (by decide) rfl⟩

/-- Claim C4: calling `filing_search` with only a ticker argument invokes
the client's `get_filings` with that ticker and form_type = None,
date_from = None, date_to = None, limit = 50; and in general
`filing_search` forwards all five parameters unchanged to the client. -/
theorem C4_filing_search_forwards {α : Type} (client : Client α) (ticker : String)
    (form_type date_from date_to : Option String) (limit : Nat) :
    (SECAPITool.filing_search_defaults client ticker).2 =
        [ClientCall.getFilings ticker none none none (some 50)] ∧
    (SECAPITool.filing_search client ticker form_type date_from date_to limit).2 =
        [ClientCall.getFilings ticker form_type date_from date_to (some limit)] := by
  constructor
  · unfold SECAPITool.filing_search_defaults
    rcases hc : client (ClientCall.getFilings ticker none none none (some 50)) with e | r <;>
      simp [SECAPITool.filing_search, hc]
  · rcases hc : client (ClientCall.getFilings ticker form_type date_from date_to (some limit))
      with e | r <;>
      simp [SECAPITool.filing_search, hc]

/-- Claim C5: calling `full_text_search` with only a query argument
invokes the client's `full_text_search` with search_query equal to that
query and form_types = None, date_from = None, date_to = None,
limit = 50; and in general it forwards all five parameters unchanged. -/
theorem C5_full_text_search_forwards {α : Type} (client : Client α) (query : String)
    (form_types : Option (List String)) (date_from date_to : Option String) (limit : Nat) :
    (SECAPITool.full_text_search_defaults client query).2 =
        [ClientCall.fullTextSearch query none none none (some 50)] ∧
    (SECAPITool.full_text_search client query form_types date_from date_to limit).2 =
        [ClientCall.fullTextSearch query form_types date_from date_to (some limit)] := by
  constructor
  · unfold SECAPITool.full_text_search_defaults
    rcases hc : client (ClientCall.fullTextSearch query none none none (some 50)) with e | r <;>
      simp [SECAPITool.full_text_search, hc]
  · rcases hc : client (ClientCall.fullTextSearch query form_types date_from date_to (some limit))
      with e | r <;>
      simp [SECAPITool.full_text_search, hc]

/-- Claim C6: whenever the client raises inside an explicit parameterized
operation, that operation raises a ValueError whose message is the
operation-specific prefix followed by the original exception's message:
"Error in filing search: " for `filing_search` and "Error in full text
search: " for `full_text_search`. -/
theorem C6_explicit_ops_wrap_errors {α : Type} (client : Client α) (e : Exc)
    (ticker query : String) (form_type date_from date_to : Option String)
    (form_types : Option (List String)) (limit : Nat) :
    (client (ClientCall.getFilings ticker form_type date_from date_to (some limit)) =
        Except.error e →
      (SECAPITool.filing_search client ticker form_type date_from date_to limit).1 =
        Except.error (RaisedError.valueError ("Error in filing search: " ++ e.msg))) ∧
    (client (ClientCall.fullTextSearch query form_types date_from date_to (some limit)) =
        Except.error e →
      (SECAPITool.full_text_search client query form_types date_from date_to limit).1 =
        Except.error (RaisedError.valueError ("Error in full text search: " ++ e.msg))) := by
  constructor
  · intro herr
    simp [SECAPITool.filing_search, herr]
  · intro herr
    simp [SECAPITool.full_text_search, herr]

theorem C6_witness :
    (SECAPITool.filing_search (fun _ => Except.error (Exc.mk "boom") : Client Nat)
        "AAPL" none none none 50).1 =
      Except.error (RaisedError.valueError ("Error in filing search: " ++ "boom")) ∧
    (SECAPITool.full_text_search (fun _ => Except.error (Exc.mk "boom") : Client Nat)
        "artificial intelligence" none none none 50).1 =
      Except.error (RaisedError.valueError ("Error in full text search: " ++ "boom")) :=
  ⟨(C6_explicit_ops_wrap_errors (fun _ => Except.error (Exc.mk "boom")) (Exc.mk "boom")
      "AAPL" "artificial intelligence" none none none none 50).1 rfl,
   (C6_explicit_ops_wrap_errors (fun _ => Except.error (Exc.mk "boom")) (Exc.mk "boom")
      "AAPL" "artificial intelligence" none none none none 50).2 rfl⟩

/-- Claim C7: for the empty string query the classification heuristic of
`_run` evaluates false (Python's "".isupper() is False, there being no
cased character), so `_run` invokes the client's `full_text_search` with
search_query = "" and limit = 5, never the filing-lookup operation, and on
success returns the client's result unchanged. -/
theorem C7_run_empty_query {α : Type} (client : Client α) :
    isTickerQuery "" = false ∧
    (SECAPITool.run client "").2 =
        [ClientCall.fullTextSearch "" none none none (some 5)] ∧
    (∀ r : α, client (ClientCall.fullTextSearch "" none none none (some 5)) = Except.ok r →
      (SECAPITool.run client "").1 = Except.ok r) := by
  refine ⟨by decide, run_calls_of_fulltext client "" (by decide), fun r hok => ?_⟩
  rw [run_eq_of_fulltext_ok client "" r (by decide) hok]

theorem C7_witness :
    (SECAPITool.run (fun _ => Except.ok (0 : Nat)) "").1 = Except.ok 0 :=
  (C7_run_empty_query (fun _ => Except.ok 0)).2.2 0 rfl

/-- Claim C8: when the adapter is constructed with an explicit non-empty
credential argument, that credential — not any default credential
configured on the class — is the one bound to the constructed
CustomSECAPI client wrapper. -/
theorem C8_explicit_key_bound (k class_default : String) (hk : k ≠ "") :
    SECAPITool.bound_api_key (some k) class_default = k := by
  simp [SECAPITool.bound_api_key, hk]

theorem C8_witness :
    SECAPITool.bound_api_key (some "explicit-key") "class-default-key" = "explicit-key" :=
  C8_explicit_key_bound "explicit-key" "class-default-key" (by decide)

/-- Claim C9: the routing predicate applied by `_run` is Python's
str.isupper combined with len(query) <= 5: every query of length at most
5 that contains at least one cased character, all of whose cased
characters are uppercase — including strings with digits or punctuation
such as "10-K" or "A1" — is routed to the filing-lookup operation, not to
full-text search. -/
theorem C9_routing_is_isupper_len5 {α : Type} (client : Client α) (q : String)
    (hcased : ∃ c ∈ q.data, pyCased c = true)
    (hupper : ∀ c ∈ q.data, pyCased c = true → isUpperAscii c = true)
    (h5 : q.length ≤ 5) :
    (SECAPITool.run client q).2 = [ClientCall.getFilings q none none none (some 5)] :=
  run_calls_of_ticker client q
    ((isTickerQuery_eq_true_iff q).mpr ⟨hcased, hupper, h5⟩)

theorem C9_witness :
    (SECAPITool.run (fun _ => Except.ok (0 : Nat)) "10-K").2 =
        [ClientCall.getFilings "10-K" none none none (some 5)] ∧
    (SECAPITool.run (fun _ => Except.ok (0 : Nat)) "A1").2 =
        [ClientCall.getFilings "A1" none none none (some 5)] :=
  ⟨C9_routing_is_isupper_len5 (fun _ => Except.ok 0) "10-K"
      (by decide) (by decide) (by decide),
   C9_routing_is_isupper_len5 (fun _ => Except.ok 0) "A1"
      (by decide) (by decide) (by decide)⟩

/-- Claim C10: every invocation of `_run` makes at most one call to the
external client; in particular, when the query is classified as a ticker
the call trace is exactly the one `get_filings` call for every client
outcome — even when that call raises, the full-text-search operation is
never attempted (no fallback between branches). -/
theorem C10_at_most_one_client_call {α : Type} (client : Client α) (q : String) :
    (SECAPITool.run client q).2.length ≤ 1 ∧
    (isTickerQuery q = true →
      (SECAPITool.run client q).2 = [ClientCall.getFilings q none none none (some 5)]) := by
  constructor
  · rcases ht : isTickerQuery q with _ | _
    · rw [run_calls_of_fulltext client q ht]
      exact Nat.le_refl 1
    · rw [run_calls_of_ticker client q ht]
      exact Nat.le_refl 1
  · exact run_calls_of_ticker client q

theorem C10_witness :
    (SECAPITool.run (fun _ => Except.error (Exc.mk "boom") : Client Nat) "TSLA").2 =
      [ClientCall.getFilings "TSLA" none none none (some 5)] :=
  (C10_at_most_one_client_call (fun _ => Except.error (Exc.mk "boom")) "TSLA").2 (by decide)
